import Mathlib

/-
Verification of the razorcore multi-project git save / commit-message /
version-bump orchestration (src/.razorcore/src/razorcore/cli/commands.py,
with the older copy in src/razorcore/src/razorcore/cli/commands.py).

The Python code is shallowly embedded: pure string manipulation is
translated to executable Lean functions over String / List Char, and the
effectful orchestration (git subprocess calls, filesystem) is modelled by
explicit environments recording the outcome of each external call, plus an
event trace of the git commit / push invocations performed for the target
project.  Python str operations are modelled on their ASCII fragment
(str.lower, str.strip, str.split, slicing by characters).
-/

namespace Razorcore

/-! ### Python string primitives used by commands.py -/

/-- Model of Python str.lower on a single character (ASCII fragment). -/
def lowerChar (c : Char) : Char := c.toLower

/-- Model of Python str.lower (ASCII fragment). -/
def pyLower (s : String) : String := String.mk (s.toList.map lowerChar)

/-- Substring search on character lists: does the needle occur as a
contiguous run inside the haystack? -/
def subChain (needle : List Char) : List Char → Bool
  | [] => needle.isEmpty
  | c :: rest => List.isPrefixOf needle (c :: rest) || subChain needle rest

/-- Model of the Python test sub in s (substring containment). -/
def containsSub (s sub : String) : Bool := subChain sub.toList s.toList

/-- Model of Python s.startswith(p). -/
def pyStartsWith (s p : String) : Bool := List.isPrefixOf p.toList s.toList

/-- Model of Python s.endswith(p). -/
def pyEndsWith (s p : String) : Bool := List.isSuffixOf p.toList s.toList

/-- Whitespace characters recognised by Python str.strip (ASCII fragment). -/
def isSpaceChar (c : Char) : Bool :=
  c = ' ' || c = '\t' || c = '\n' || c = '\r' || c = '\x0b' || c = '\x0c'

/-- Model of Python s.strip(). -/
def pyStrip (s : String) : String :=
  String.mk (((s.toList.dropWhile isSpaceChar).reverse.dropWhile isSpaceChar).reverse)

/-- Split a character list at every occurrence of the separator; like
Python str.split(sep) this yields empty segments for adjacent separators
and always yields at least one segment. -/
def splitCharList (sep : Char) : List Char → List (List Char)
  | [] => [[]]
  | c :: rest =>
    let r := splitCharList sep rest
    if c = sep then [] :: r
    else
      match r with
      | [] => [[c]]
      | h :: t => (c :: h) :: t

/-- Model of Python s.split(sep) for a one-character separator. -/
def pySplit (sep : Char) (s : String) : List String :=
  (splitCharList sep s.toList).map String.mk

/-- Model of Python s[:n] (character slicing). -/
def pyTake (s : String) (n : Nat) : String := String.mk (s.toList.take n)

/-- Model of Python s[n:] (character slicing). -/
def pyDrop (s : String) (n : Nat) : String := String.mk (s.toList.drop n)

/-- Model of Python the membership test c in s for a character. -/
def pyHasChar (s : String) (c : Char) : Bool := s.toList.contains c

/-- Parse a run of decimal digits, accumulator style. -/
def parseDigits : List Char → Nat → Option Nat
  | [], acc => some acc
  | c :: rest, acc =>
    if c.isDigit then parseDigits rest (acc * 10 + (c.toNat - 48)) else none

/-- Model of Python int(s) on canonical non-negative decimal strings:
digits only, at least one digit. -/
def pyParseNat (s : String) : Option Nat :=
  match s.toList with
  | [] => none
  | l => parseDigits l 0

/-! ### Version Bumper: bump classification
(auto_bump_version, commands.py lines 926 to 935, and the identical loop
in bump_version lines 637 to 646). -/

/-- Breaking-change test applied to one commit subject: the lowered
subject contains the words breaking change, or the subject starts with an
exclamation mark (lines 929 to 931). -/
def isBreakingCommit (commit : String) : Bool :=
  containsSub (pyLower commit) ("breaking change") || pyStartsWith commit ("!")

/-- Feature test applied to one commit subject (line 933). -/
def isFeatCommit (commit : String) : Bool :=
  pyStartsWith commit ("feat:") || pyStartsWith commit ("feat(")

/-- Loop body of the bump-type scan (lines 926 to 935): the accumulator is
the running bump type, a breaking commit short-circuits to major, a feat
commit raises the accumulator to minor unless it is already major. -/
def classifyBumpGo : List String → String → String
  | [], bumpType => bumpType
  | commit :: rest, bumpType =>
    if isBreakingCommit commit then "major"
    else if isFeatCommit commit then
      classifyBumpGo rest (if bumpType ≠ "major" then "minor" else bumpType)
    else
      classifyBumpGo rest bumpType

/-- Bump type chosen for a list of commit subjects; the accumulator starts
at patch (line 926). -/
def classifyBump (commits : List String) : String := classifyBumpGo commits ("patch")

/-! ### Version Bumper: parsing and increment
(auto_bump_version, commands.py lines 937 to 954). -/

/-- Parse a dotted version string into its three numeric components
(lines 938 to 942): split on dots, require exactly three parts, convert
each with int(). -/
def parseVersion (s : String) : Option (Nat × Nat × Nat) :=
  match (pySplit '.' s).map pyParseNat with
  | [some a, some b, some c] => some (a, b, c)
  | _ => none

/-- The increment rules (lines 944 to 952). -/
def applyBump (bumpType : String) (v : Nat × Nat × Nat) : Nat × Nat × Nat :=
  if bumpType = "major" then (v.1 + 1, 0, 0)
  else if bumpType = "minor" then (v.1, v.2.1 + 1, 0)
  else (v.1, v.2.1, v.2.2 + 1)

/-- Rendering of the bumped version (line 954). -/
def formatVersion (v : Nat × Nat × Nat) : String :=
  toString v.1 ++ "." ++ toString v.2.1 ++ "." ++ toString v.2.2

/-! ### Theorems for claims C2 and C3 -/

theorem classifyBumpGo_characterization (l : List String) (acc : String)
    (hacc : acc = "patch" ∨ acc = "minor") :
    classifyBumpGo l acc =
      (if l.any isBreakingCommit then "major"
       else if l.any isFeatCommit then "minor"
       else acc) := by
  induction l generalizing acc with
  | nil => simp [classifyBumpGo]
  | cons c rest ih =>
    by_cases hb : isBreakingCommit c = true
    · simp [classifyBumpGo, hb]
    · have hb' : isBreakingCommit c = false := by
        cases h : isBreakingCommit c
        · rfl
        · exact absurd h hb
      by_cases hf : isFeatCommit c = true
      · have hne : acc ≠ "major" := by
          rcases hacc with h | h <;> simp [h]
        rw [classifyBumpGo]
        rw [if_neg (by simp [hb']), if_pos hf, if_pos hne]
        rw [ih ("minor") (Or.inr rfl)]
        simp [List.any_cons, hb', hf]
      · have hf' : isFeatCommit c = false := by
          cases h : isFeatCommit c
          · rfl
          · exact absurd h hf
        rw [classifyBumpGo]
        rw [if_neg (by simp [hb']), if_neg (by simp [hf'])]
        rw [ih acc hacc]
        simp [List.any_cons, hb', hf']

/-- C2: for every non-empty list of commit subjects, the bump type is
major when some subject contains breaking change case-insensitively or
starts with an exclamation mark, else minor when some subject starts with
feat: or feat(, else patch. -/
theorem bump_type_classification (commits : List String) (h : commits ≠ []) :
    classifyBump commits =
      (if commits.any isBreakingCommit then "major"
       else if commits.any isFeatCommit then "minor"
       else "patch") :=
  classifyBumpGo_characterization commits ("patch") (Or.inl rfl)

/-- C2 witness: the scenario from the spec, commits random change and
BREAKING CHANGE: removed API, classifies as a major bump. -/
theorem bump_type_classification_witness :
    classifyBump ["random change", "BREAKING CHANGE: removed API"] = "major" := by
  have h := bump_type_classification
    ["random change", "BREAKING CHANGE: removed API"] (by simp)
  rw [h]
  rfl

/-- C3: for every version string that parses into three numeric
components, the major rule yields (major+1, 0, 0), the minor rule yields
(major, minor+1, 0), and the patch rule yields (major, minor, patch+1). -/
theorem version_bump_rules (s : String) (M m p : Nat)
    (h : parseVersion s = some (M, m, p)) :
    applyBump ("major") (M, m, p) = (M + 1, 0, 0) ∧
    applyBump ("minor") (M, m, p) = (M, m + 1, 0) ∧
    applyBump ("patch") (M, m, p) = (M, m, p + 1) :=
  ⟨rfl, rfl, rfl⟩

/-- C3 witness: the version string 1.2.3 parses to (1, 2, 3) and obeys the
three increment rules. -/
theorem version_bump_rules_witness :
    applyBump ("major") (1, 2, 3) = (2, 0, 0) ∧
    applyBump ("minor") (1, 2, 3) = (1, 3, 0) ∧
    applyBump ("patch") (1, 2, 3) = (1, 2, 4) :=
  version_bump_rules ("1.2.3") 1 2 3 (by rfl)

/-! ### Commit Message Synthesizer
(save_project, commands.py lines 1180 to 1259). -/

/-- Status code of a porcelain line: the first two characters, stripped
(line 1191). -/
def lineStatus (line : String) : String := pyStrip (pyTake line 2)

/-- Path part of a porcelain line: the characters from index three on,
stripped (line 1192). -/
def linePath (line : String) : String := pyStrip (pyDrop line 3)

/-- Categorisation loop over status lines (lines 1184 to 1199), returning
the added, modified and deleted path lists in order: blank lines are
skipped; a status containing A or ? is an addition, else a status
containing D is a deletion, else the line counts as a modification. -/
def categorize : List String → List String × List String × List String
  | [] => ([], [], [])
  | line :: rest =>
    let r := categorize rest
    if pyStrip line = "" then r
    else if pyHasChar (lineStatus line) 'A' || pyHasChar (lineStatus line) '?' then
      (linePath line :: r.1, r.2.1, r.2.2)
    else if pyHasChar (lineStatus line) 'D' then
      (r.1, r.2.1, linePath line :: r.2.2)
    else
      (r.1, linePath line :: r.2.1, r.2.2)

/-- The combined file list added + modified + deleted (line 1203). -/
def allFilesOfLines (lines : List String) : List String :=
  (categorize lines).1 ++ (categorize lines).2.1 ++ (categorize lines).2.2

/-- Keyword classification of a single path, following the first three
branches of the type loop (lines 1210 to 1217): test, then fix or bug,
then feature or new or add, on the lowered path; none when no keyword
occurs. -/
def keywordTypeOf (f : String) : Option String :=
  if containsSub (pyLower f) ("test") then some ("test")
  else if containsSub (pyLower f) ("fix") || containsSub (pyLower f) ("bug") then
    some ("fix")
  else if containsSub (pyLower f) ("feature") || containsSub (pyLower f) ("new")
      || containsSub (pyLower f) ("add") then
    some ("feat")
  else none

/-- Diff-based adjustment for a Python file that matched no keyword
(lines 1219 to 1233): a lowered diff containing both the text def-space
and a plus sign upgrades the accumulator to feat, else fix or bug in the
diff downgrades it to fix, else the accumulator is kept. -/
def diffAdjust (diffText : String) (acc : String) : String :=
  let d := pyLower diffText
  if containsSub d ("def ") && containsSub d ("+") then "feat"
  else if containsSub d ("fix") || containsSub d ("bug") then "fix"
  else acc

/-- Commit-type loop over the file list (lines 1209 to 1233).  A keyword
match on the current file returns at once (the Python break); otherwise a
.py file updates the running type from its diff text and the scan
continues. -/
def commitTypeGo (diffOf : String → String) : List String → String → String
  | [], acc => acc
  | f :: rest, acc =>
    match keywordTypeOf f with
    | some t => t
    | none =>
      if pyEndsWith f (".py") then
        commitTypeGo diffOf rest (diffAdjust (diffOf f) acc)
      else
        commitTypeGo diffOf rest acc

/-- Commit type of a file list; the accumulator starts at chore
(line 1206). -/
def commitTypeOf (diffOf : String → String) (files : List String) : String :=
  commitTypeGo diffOf files ("chore")

/-- Commit type synthesized from raw status lines. -/
def commitTypeOfLines (diffOf : String → String) (lines : List String) : String :=
  commitTypeOf diffOf (allFilesOfLines lines)

/-- Scope key contributed by one path (lines 1237 to 1240): paths with at
least two components contribute the parent directory when the last
component ends in .py and otherwise the stem of the last component;
single-component paths contribute nothing. -/
def scopeKeyOf (f : String) : Option String :=
  let parts := pySplit '/' f
  if parts.length > 1 then
    some (if pyEndsWith (parts.getLastD ("")) (".py")
          then parts.getD (parts.length - 2) ("")
          else (pySplit '.' (parts.getLastD (""))).headD (""))
  else none

/-- All scope keys of a file list, in scan order. -/
def scopeKeys (files : List String) : List String := files.filterMap scopeKeyOf

/-- Scope component of the commit message (lines 1242 to 1243): when the
set of scope keys has exactly one element it is wrapped in parentheses,
otherwise the scope is empty.  The Python set is modelled by dedup; only
the singleton case is inspected, where every dedup order agrees. -/
def scopeOf (files : List String) : String :=
  if (scopeKeys files).dedup.length = 1 then
    ("(") ++ (scopeKeys files).dedup.headD ("") ++ (")")
  else ""

/-- Scope synthesized from raw status lines. -/
def scopeOfLines (lines : List String) : String := scopeOf (allFilesOfLines lines)

/-- Last path component, Python f.split with slash, index -1
(lines 1247, 1251, 1253). -/
def baseName (f : String) : String := (pySplit '/' f).getLastD ("")

/-- Comma-joined base names of the first three paths. -/
def joinBaseNames (files : List String) : String :=
  String.intercalate (", ") ((files.take 3).map baseName)

/-- Description builder (lines 1246 to 1257): add when purely additions,
remove when purely deletions (without an overflow clause), update when any
modification exists, else a file count. -/
def buildDesc (added modified deleted : List String) : String :=
  if added ≠ [] ∧ modified = [] ∧ deleted = [] then
    ("add ") ++ joinBaseNames added ++
      (if added.length > 3 then (" and ") ++ toString (added.length - 3) ++ (" more")
       else "")
  else if deleted ≠ [] ∧ added = [] ∧ modified = [] then
    ("remove ") ++ joinBaseNames deleted
  else if modified ≠ [] then
    ("update ") ++ joinBaseNames modified ++
      (if modified.length > 3 then (" and ") ++ toString (modified.length - 3) ++ (" more")
       else "")
  else
    ("update ") ++ toString (added.length + modified.length + deleted.length) ++ (" files")

/-- The full synthesized commit message, type then scope then colon then
description (line 1259). -/
def commitMessage (diffOf : String → String) (lines : List String) : String :=
  commitTypeOfLines diffOf lines ++ scopeOfLines lines ++ (": ") ++
    buildDesc (categorize lines).1 (categorize lines).2.1 (categorize lines).2.2

/-! ### Spec-side synthesizer definitions, for refinement comparison.
These two definitions follow the words of the specification, not the
code; they exist only to state where the code diverges from the spec. -/

/-- Whole-set priority keyword scan as the spec describes it: test when
any path contains test, else fix when any path contains fix or bug, else
feat when any path contains a feature keyword. -/
def specCommitTypeKeyword (files : List String) : Option String :=
  if files.any (fun f => containsSub (pyLower f) ("test")) then some ("test")
  else if files.any
      (fun f => containsSub (pyLower f) ("fix") || containsSub (pyLower f) ("bug")) then
    some ("fix")
  else if files.any
      (fun f => containsSub (pyLower f) ("feature") || containsSub (pyLower f) ("new")
        || containsSub (pyLower f) ("add")) then
    some ("feat")
  else none

/-- Scope key as the spec describes it: the immediate parent directory of
a nested path, or the file stem for a top-level file. -/
def specScopeKey (f : String) : String :=
  let parts := pySplit '/' f
  if parts.length > 1 then parts.getD (parts.length - 2) ("")
  else (pySplit '.' (parts.getLastD (""))).headD ("")

/-! ### Theorems for claims C5 and C7 -/

theorem commitTypeGo_first_keyword (diffOf : String → String) (post : List String)
    (f t : String) (hf : keywordTypeOf f = some t) :
    ∀ (pre : List String), (∀ g ∈ pre, keywordTypeOf g = none) →
      ∀ acc, commitTypeGo diffOf (pre ++ f :: post) acc = t := by
  intro pre
  induction pre with
  | nil =>
    intro _ acc
    simp [commitTypeGo, hf]
  | cons g pre ih =>
    intro hpre acc
    have hg : keywordTypeOf g = none := hpre g (List.mem_cons_self g pre)
    have hpre' : ∀ x ∈ pre, keywordTypeOf x = none := by
      intro x hx
      exact hpre x (List.mem_cons_of_mem g hx)
    rw [List.cons_append, commitTypeGo, hg]
    cases hpy : pyEndsWith g (".py") <;> simp [ih hpre']

/-- C5 (amended): the commit type scan is a per-file first-match scan, not
a whole-set priority scan: whenever some file matches a path keyword
(test, then fix or bug, then feature, new or add, in that per-file order)
and every earlier file in the scan matches no keyword, the synthesized
type is the keyword type of that first matching file, whatever the diff
texts and the later files are. -/
theorem commit_type_first_match (diffOf : String → String)
    (pre post : List String) (f t : String)
    (hpre : ∀ g ∈ pre, keywordTypeOf g = none)
    (hf : keywordTypeOf f = some t) :
    commitTypeOf diffOf (pre ++ f :: post) = t :=
  commitTypeGo_first_keyword diffOf post f t hf pre hpre ("chore")

/-- C5 witness: with files main.c (no keyword) then tests/util.py, the
type is test. -/
theorem commit_type_first_match_witness :
    commitTypeOf (fun _ => "") (["main.c"] ++ ("tests/util.py") :: []) = "test" :=
  commit_type_first_match (fun _ => "") (["main.c"]) [] ("tests/util.py") ("test")
    (by decide) (by rfl)

/-- C5 counterexample: the claim says the whole change set is scanned with
the priority test before fix, so for the set myfix.txt, mytest.txt it
demands type test; the code scans file by file, finds fix in the first
path and stops, yielding fix. -/
theorem commit_type_priority_counterexample :
    commitTypeOf (fun _ => "") ["myfix.txt", "mytest.txt"] = "fix" ∧
    specCommitTypeKeyword ["myfix.txt", "mytest.txt"] = some ("test") :=
  ⟨rfl, rfl⟩

/-- C7 (amended): for the status lines A src/foo.py, A src/bar.py,
A src/baz.py, A src/qux.py the description is exactly the claimed add
foo.py, bar.py, baz.py and 1 more, but the type is chore, not feat: none
of the paths contains a type keyword, and when the inspected diffs of the
four Python files are all empty the diff heuristic never fires. -/
theorem scenario_add_four_files (diffOf : String → String)
    (hdiff : ∀ f, diffOf f = "") :
    commitMessage diffOf
        ["A  src/foo.py", "A  src/bar.py", "A  src/baz.py", "A  src/qux.py"] =
      "chore(src): add foo.py, bar.py, baz.py and 1 more" := by
  have h : diffOf = fun _ => "" := funext hdiff
  subst h
  rfl

/-- C7 witness: the amended scenario evaluated at the all-empty diff
environment. -/
theorem scenario_add_four_files_witness :
    commitMessage (fun _ => "")
        ["A  src/foo.py", "A  src/bar.py", "A  src/baz.py", "A  src/qux.py"] =
      "chore(src): add foo.py, bar.py, baz.py and 1 more" :=
  scenario_add_four_files (fun _ => "") (fun _ => rfl)

/-- C7 counterexample: with empty diff output for every file, the
synthesized type for the claimed change set is chore, not the claimed
feat: no path contains the keyword add, all four files are .py files and
their diff inspection finds nothing. -/
theorem scenario_add_four_files_counterexample :
    commitTypeOfLines (fun _ => "")
        ["A  src/foo.py", "A  src/bar.py", "A  src/baz.py", "A  src/qux.py"] =
      "chore" ∧ ("chore" : String) ≠ "feat" :=
  ⟨rfl, by decide⟩

/-! ### Theorems for claims C8 and C9 -/

theorem dedup_eq_singleton_iff {l : List String} {d : String} :
    l.dedup = [d] ↔ l ≠ [] ∧ ∀ x ∈ l, x = d := by
  induction l with
  | nil => simp
  | cons a l ih =>
    by_cases hmem : a ∈ l
    · rw [List.dedup_cons_of_mem hmem]
      constructor
      · intro h
        have hl := ih.mp h
        refine ⟨by simp, ?_⟩
        intro x hx
        rcases List.mem_cons.mp hx with hxa | hx
        · rw [hxa]
          exact hl.2 a hmem
        · exact hl.2 x hx
      · rintro ⟨-, hall⟩
        apply ih.mpr
        refine ⟨?_, ?_⟩
        · intro hnil
          rw [hnil] at hmem
          exact List.not_mem_nil a hmem
        · intro x hx
          exact hall x (List.mem_cons_of_mem a hx)
    · rw [List.dedup_cons_of_not_mem hmem]
      constructor
      · intro h
        obtain ⟨rfl, h2⟩ := List.cons_eq_cons.mp h
        have hl : l = [] := (List.dedup_eq_nil l).mp h2
        subst hl
        exact ⟨by simp, by simp⟩
      · rintro ⟨-, hall⟩
        have ha : a = d := hall a (List.mem_cons_self a l)
        have hl : l = [] := by
          by_contra hlne
          obtain ⟨b, hb⟩ := List.exists_mem_of_ne_nil l hlne
          have hbd : b = d := hall b (List.mem_cons_of_mem a hb)
          rw [ha, ← hbd] at hmem
          exact hmem hb
        subst hl
        simp [ha]

/-- C8 (amended): the synthesized message carries a parenthesized scope
exactly when the scope keys of the changed paths are non-empty and all
equal, the scope being that common key.  A scope key exists only for
paths with at least two components: the parent directory when the last
component ends in .py, and otherwise the stem of the last component;
top-level files contribute no key at all. -/
theorem scope_selection (files : List String) :
    scopeOf files =
      (if scopeKeys files ≠ [] ∧ ∀ x ∈ scopeKeys files, x = (scopeKeys files).headD ("")
       then ("(") ++ (scopeKeys files).headD ("") ++ (")")
       else "") := by
  by_cases hc : scopeKeys files ≠ [] ∧ ∀ x ∈ scopeKeys files, x = (scopeKeys files).headD ("")
  · have hd : (scopeKeys files).dedup = [(scopeKeys files).headD ("")] :=
      dedup_eq_singleton_iff.mpr hc
    rw [scopeOf, if_pos (by rw [hd]; rfl), if_pos hc, hd]
    rfl
  · have hnd : ¬ (scopeKeys files).dedup.length = 1 := by
      intro hlen
      obtain ⟨d, hd⟩ := List.length_eq_one.mp hlen
      obtain ⟨hne, hall⟩ := dedup_eq_singleton_iff.mp hd
      apply hc
      have hhead : (scopeKeys files).headD ("") = d := by
        cases hks : scopeKeys files with
        | nil => exact absurd hks hne
        | cons y ys =>
          have hy : y = d := hall y (by rw [hks]; exact List.mem_cons_self y ys)
          simp [hy]
      refine ⟨hne, ?_⟩
      intro x hx
      rw [hhead]
      exact hall x hx
    rw [scopeOf, if_neg hnd, if_neg hc]

/-- C8 counterexample: for the modified paths docs/readme.md and
docs/guide.md the immediate parent directories collapse to the single
value docs, so the claim demands the scope (docs); the code collects the
file stems readme and guide instead and synthesizes no scope at all. -/
theorem scope_counterexample :
    scopeOfLines ["M  docs/readme.md", "M  docs/guide.md"] = "" ∧
    ((allFilesOfLines ["M  docs/readme.md", "M  docs/guide.md"]).map specScopeKey).dedup
      = ["docs"] :=
  ⟨rfl, by decide⟩

/-- Selector for added paths, matching one pass of the categorisation
loop. -/
def addedPath? (line : String) : Option String :=
  if pyStrip line = "" then none
  else if pyHasChar (lineStatus line) 'A' || pyHasChar (lineStatus line) '?' then
    some (linePath line)
  else none

/-- Selector for deleted paths, matching one pass of the categorisation
loop. -/
def deletedPath? (line : String) : Option String :=
  if pyStrip line = "" then none
  else if pyHasChar (lineStatus line) 'A' || pyHasChar (lineStatus line) '?' then none
  else if pyHasChar (lineStatus line) 'D' then some (linePath line)
  else none

/-- Selector for modified paths, matching one pass of the categorisation
loop. -/
def modifiedPath? (line : String) : Option String :=
  if pyStrip line = "" then none
  else if pyHasChar (lineStatus line) 'A' || pyHasChar (lineStatus line) '?' then none
  else if pyHasChar (lineStatus line) 'D' then none
  else some (linePath line)

theorem categorize_eq_filterMap (lines : List String) :
    categorize lines =
      (lines.filterMap addedPath?, lines.filterMap modifiedPath?,
        lines.filterMap deletedPath?) := by
  induction lines with
  | nil => rfl
  | cons line rest ih =>
    by_cases h1 : pyStrip line = ""
    · simp [categorize, addedPath?, modifiedPath?, deletedPath?, h1, ih]
    · by_cases h2 :
        (pyHasChar (lineStatus line) 'A' || pyHasChar (lineStatus line) '?') = true
      · simp [categorize, addedPath?, modifiedPath?, deletedPath?, h1, h2, ih]
      · by_cases h3 : pyHasChar (lineStatus line) 'D' = true
        · simp [categorize, addedPath?, modifiedPath?, deletedPath?, h1, h2, h3, ih]
        · simp [categorize, addedPath?, modifiedPath?, deletedPath?, h1, h2, h3, ih]

theorem scopeOf_perm {f1 f2 : List String} (h : List.Perm f1 f2) :
    scopeOf f1 = scopeOf f2 := by
  have hk : List.Perm (scopeKeys f1) (scopeKeys f2) := h.filterMap scopeKeyOf
  have hd := hk.dedup
  have hlen := hd.length_eq
  by_cases h1 : (scopeKeys f1).dedup.length = 1
  · obtain ⟨d, hd1⟩ := List.length_eq_one.mp h1
    rw [hd1] at hd
    have hd2 : (scopeKeys f2).dedup = [d] := List.perm_singleton.mp hd.symm
    rw [scopeOf, scopeOf, if_pos h1, if_pos (by rw [← hlen]; exact h1), hd1, hd2]
  · rw [scopeOf, scopeOf, if_neg h1, if_neg (fun hx => h1 (by rw [hlen]; exact hx))]

/-- C9 (amended): the scope component of the synthesized message is
invariant under every permutation of the status lines, since it depends
only on the multiset of scope keys; the commit type is not permutation
invariant, because the type loop stops at the first file whose path
matches a keyword (see the companion counterexample). -/
theorem scope_permutation_invariant (lines1 lines2 : List String)
    (h : List.Perm lines1 lines2) :
    scopeOfLines lines1 = scopeOfLines lines2 := by
  have hall : List.Perm (allFilesOfLines lines1) (allFilesOfLines lines2) := by
    rw [allFilesOfLines, allFilesOfLines, categorize_eq_filterMap,
      categorize_eq_filterMap]
    exact ((h.filterMap addedPath?).append (h.filterMap modifiedPath?)).append
      (h.filterMap deletedPath?)
  exact scopeOf_perm hall

/-- C9 witness: swapping two status lines leaves the scope unchanged. -/
theorem scope_permutation_invariant_witness :
    scopeOfLines ["M  src/a.py", "A  src/b.py"] =
      scopeOfLines ["A  src/b.py", "M  src/a.py"] :=
  scope_permutation_invariant ["M  src/a.py", "A  src/b.py"]
    ["A  src/b.py", "M  src/a.py"]
    (List.Perm.swap ("A  src/b.py") ("M  src/a.py") [])

/-- C9 counterexample: the commit type is not invariant under reordering
of same-type status lines: the added lines for myfix.txt and mytest.txt
give type fix in one order and type test in the other, because the scan
stops at the first keyword match. -/
theorem type_not_permutation_invariant :
    commitTypeOfLines (fun _ => "") ["A  myfix.txt", "A  mytest.txt"] = "fix" ∧
    commitTypeOfLines (fun _ => "") ["A  mytest.txt", "A  myfix.txt"] = "test" ∧
    List.Perm (["A  myfix.txt", "A  mytest.txt"] : List String)
      ["A  mytest.txt", "A  myfix.txt"] :=
  ⟨rfl, rfl, List.Perm.swap ("A  mytest.txt") ("A  myfix.txt") []⟩

/-! ### Isolated-Index Committer
(save_project lines 1263 to 1314 and auto_bump_version lines 989 to
1034).  The parent repository is abstracted as three partial maps from
path to blob content: the tree of HEAD, the primary index and the working
tree.  Each git invocation of the protocol is embedded as the map
transformation it performs. -/

/-- Pathspec membership for the project subtree: the path equals the
relative project path or lies strictly below it.  This is also the
membership test the code itself applies in its outside-changes diagnostic
(lines 1164 to 1167). -/
def underProject (rel p : String) : Bool :=
  p = rel || pyStartsWith p (rel ++ "/")

/-- Abstract repository state. -/
structure GitState where
  head : String → Option String
  index : String → Option String
  worktree : String → Option String

/-- Steps 1 and 2: the temporary index created and seeded from the HEAD
tree by git read-tree HEAD run with the isolated index file
(lines 1266 to 1280). -/
def seededTempIndex (s : GitState) : String → Option String := s.head

/-- Step 3: git add -A restricted to the project pathspec, run against the
given index (lines 1282 to 1289): every path under the project is
synchronised with the working tree, every other entry is untouched. -/
def stageProject (rel : String) (s : GitState) (idx : String → Option String) :
    String → Option String :=
  fun p => if underProject rel p then s.worktree p else idx p

/-- Step 5: git reset HEAD restricted to the project pathspec, run against
the primary index (lines 1303 to 1309): entries under the project are
reset to the given HEAD tree, every other entry is untouched. -/
def resetProjectTo (rel : String) (head idx : String → Option String) :
    String → Option String :=
  fun p => if underProject rel p then head p else idx p

/-- The isolated-index commit of save_project (lines 1263 to 1314).  The
outcome of the external git commit call is a parameter.  On success the
repository HEAD becomes the staged temporary index and the primary index
is reset against the new HEAD under the project pathspec only; on failure
nothing changes (the reset is guarded by the commit result, and the
temporary index file is deleted on every exit path). -/
def saveIsolatedCommit (rel : String) (s : GitState) (commitOk : Bool) : GitState :=
  let temp := stageProject rel s (seededTempIndex s)
  if commitOk then
    { s with head := temp, index := resetProjectTo rel temp s.index }
  else s

/-- The isolated-index commit of auto_bump_version (lines 989 to 1034).
Identical staging and commit, but the reset of the primary index runs
unconditionally, against whatever HEAD then is: the new commit on success,
the unchanged old HEAD on failure. -/
def bumpIsolatedCommit (rel : String) (s : GitState) (commitOk : Bool) : GitState :=
  let temp := stageProject rel s (seededTempIndex s)
  let newHead := if commitOk then temp else s.head
  { s with head := newHead, index := resetProjectTo rel newHead s.index }

/-- C1: for both the save and the version-bump isolated-index commits and
for every path outside the project subtree: the primary-index entry is
unchanged whether the commit succeeds or fails, the committed HEAD tree
agrees with the old HEAD there, and the temporary index never stages
anything there beyond the seeded HEAD content. -/
theorem isolated_commit_frame (rel : String) (s : GitState) (commitOk : Bool)
    (p : String) (hout : underProject rel p = false) :
    (saveIsolatedCommit rel s commitOk).index p = s.index p ∧
    (saveIsolatedCommit rel s commitOk).head p = s.head p ∧
    (bumpIsolatedCommit rel s commitOk).index p = s.index p ∧
    (bumpIsolatedCommit rel s commitOk).head p = s.head p ∧
    stageProject rel s (seededTempIndex s) p = s.head p := by
  cases commitOk <;>
    simp [saveIsolatedCommit, bumpIsolatedCommit, stageProject, resetProjectTo,
      seededTempIndex, hout]

/-- Example parent-repository state: the path README.md is staged in the
primary index and lies outside the .razorcore subtree. -/
def exampleGitState : GitState :=
  ⟨fun p => if p = "README.md" then some ("old readme") else none,
   fun p => if p = "README.md" then some ("staged readme") else none,
   fun p => if p = ".razorcore/pyproject.toml" then some ("new toml") else none⟩

/-- C1 witness: the frame property evaluated for the .razorcore subtree
and the outside staged path README.md on a successful commit. -/
theorem isolated_commit_frame_witness :
    (saveIsolatedCommit (".razorcore") exampleGitState true).index ("README.md") =
        exampleGitState.index ("README.md") ∧
    (saveIsolatedCommit (".razorcore") exampleGitState true).head ("README.md") =
        exampleGitState.head ("README.md") ∧
    (bumpIsolatedCommit (".razorcore") exampleGitState true).index ("README.md") =
        exampleGitState.index ("README.md") ∧
    (bumpIsolatedCommit (".razorcore") exampleGitState true).head ("README.md") =
        exampleGitState.head ("README.md") ∧
    stageProject (".razorcore") exampleGitState (seededTempIndex exampleGitState)
        ("README.md") = exampleGitState.head ("README.md") :=
  isolated_commit_frame (".razorcore") exampleGitState true ("README.md") (by rfl)

/-! ### Git Command Adapter call inventory, for claim C4.
Every subprocess.run invocation of git in the two command modules, with
its enclosing function, source line, git subcommand and Python check flag.
A call with check true raises CalledProcessError on a non-zero exit; a
call with check false (the subprocess.run default) returns the exit code
in its result object. -/

/-- One git invocation site. -/
structure GitCall where
  file : String
  fn : String
  line : Nat
  subcommand : String
  check : Bool
deriving DecidableEq

/-- All git invocation sites of src/.razorcore/src/razorcore/cli/commands.py
and src/razorcore/src/razorcore/cli/commands.py, in source order. -/
def gitCalls : List GitCall := [
  ⟨".razorcore", "_maybe_auto_save_razorcore", 69, "status", false⟩,
  ⟨".razorcore", "commit_all", 434, "status", false⟩,
  ⟨".razorcore", "commit_all", 448, "add", true⟩,
  ⟨".razorcore", "commit_all", 451, "commit", false⟩,
  ⟨".razorcore", "commit_all", 465, "push", false⟩,
  ⟨".razorcore", "list_projects", 526, "status", false⟩,
  ⟨".razorcore", "bump_version", 559, "rev-parse", false⟩,
  ⟨".razorcore", "bump_version", 603, "describe", false⟩,
  ⟨".razorcore", "bump_version", 620, "log", false⟩,
  ⟨".razorcore", "bump_version", 705, "read-tree", false⟩,
  ⟨".razorcore", "bump_version", 713, "add", false⟩,
  ⟨".razorcore", "bump_version", 721, "commit", false⟩,
  ⟨".razorcore", "bump_version", 729, "reset", false⟩,
  ⟨".razorcore", "bump_version", 742, "add", false⟩,
  ⟨".razorcore", "bump_version", 743, "commit", false⟩,
  ⟨".razorcore", "bump_version", 750, "tag", false⟩,
  ⟨".razorcore", "bump_version", 767, "push", false⟩,
  ⟨".razorcore", "bump_version", 780, "push", false⟩,
  ⟨".razorcore", "auto_bump_version", 864, "rev-parse", false⟩,
  ⟨".razorcore", "auto_bump_version", 887, "describe", false⟩,
  ⟨".razorcore", "auto_bump_version", 904, "log", false⟩,
  ⟨".razorcore", "auto_bump_version", 912, "log", false⟩,
  ⟨".razorcore", "auto_bump_version", 999, "read-tree", false⟩,
  ⟨".razorcore", "auto_bump_version", 1007, "add", false⟩,
  ⟨".razorcore", "auto_bump_version", 1015, "commit", false⟩,
  ⟨".razorcore", "auto_bump_version", 1023, "reset", false⟩,
  ⟨".razorcore", "auto_bump_version", 1036, "add", false⟩,
  ⟨".razorcore", "auto_bump_version", 1037, "commit", false⟩,
  ⟨".razorcore", "auto_bump_version", 1045, "tag", false⟩,
  ⟨".razorcore", "auto_bump_version", 1062, "push", false⟩,
  ⟨".razorcore", "auto_bump_version", 1063, "push", false⟩,
  ⟨".razorcore", "save_project", 1085, "rev-parse", false⟩,
  ⟨".razorcore", "save_project", 1111, "status", false⟩,
  ⟨".razorcore", "save_project", 1119, "status", false⟩,
  ⟨".razorcore", "save_project", 1137, "status", false⟩,
  ⟨".razorcore", "save_project", 1222, "diff", false⟩,
  ⟨".razorcore", "save_project", 1273, "read-tree", false⟩,
  ⟨".razorcore", "save_project", 1282, "add", false⟩,
  ⟨".razorcore", "save_project", 1291, "commit", false⟩,
  ⟨".razorcore", "save_project", 1303, "reset", false⟩,
  ⟨".razorcore", "save_project", 1317, "add", false⟩,
  ⟨".razorcore", "save_project", 1320, "commit", false⟩,
  ⟨".razorcore", "save_project", 1337, "push", false⟩,
  ⟨".razorcore", "save_all", 1387, "status", false⟩,
  ⟨"razorcore", "commit_all", 280, "status", false⟩,
  ⟨"razorcore", "commit_all", 293, "add", true⟩,
  ⟨"razorcore", "commit_all", 296, "commit", false⟩,
  ⟨"razorcore", "commit_all", 309, "push", false⟩,
  ⟨"razorcore", "list_projects", 369, "status", false⟩,
  ⟨"razorcore", "bump_version", 419, "describe", false⟩,
  ⟨"razorcore", "bump_version", 435, "log", false⟩,
  ⟨"razorcore", "bump_version", 510, "add", false⟩,
  ⟨"razorcore", "bump_version", 511, "commit", false⟩,
  ⟨"razorcore", "bump_version", 515, "tag", false⟩,
  ⟨"razorcore", "bump_version", 523, "push", false⟩,
  ⟨"razorcore", "bump_version", 535, "push", false⟩]

/-- C4 (amended): every git invocation of the orchestration commands
returns a non-zero exit status as a result code, except the one stage-all
call in each copy of commit_all, which passes check true and therefore
raises on a non-zero exit. -/
theorem git_calls_no_raise_except_stage :
    gitCalls.filter (fun c => c.check) =
      [⟨".razorcore", "commit_all", 448, "add", true⟩,
       ⟨"razorcore", "commit_all", 293, "add", true⟩] := by
  decide

/-- C4 counterexample: the stage-all invocation in commit_all is a git
invocation of the orchestration commands that raises on non-zero exit, so
the claim that no git invocation ever raises is false. -/
theorem git_raise_counterexample :
    (⟨".razorcore", "commit_all", 448, "add", true⟩ : GitCall) ∈ gitCalls ∧
    ¬ (∀ c ∈ gitCalls, c.check = false) := by
  constructor
  · decide
  · intro h
    have := h (⟨".razorcore", "commit_all", 448, "add", true⟩ : GitCall) (by decide)
    simp at this

/-! ### Save Orchestrator
(save_project, commands.py lines 1069 to 1368).  The outcomes of the
external calls are collected in an environment; the function returns the
Python exit code together with the trace of commit and push invocations
performed for the target project itself.  The cascaded auto-save of the
toolkit repository (_maybe_auto_save_razorcore, lines 64 to 85) touches
only the .razorcore project; its return value is abstracted as the field
razorcoreSaveResult, and its zero cases (directory absent, or clean)
are covered by that value being zero. -/

/-- Outcomes of the external calls made by one save_project run, in the
order the code consults them. -/
structure SaveEnv where
  projectExists : Bool
  gitRootCode : Nat
  gitRootOut : String
  isNested : Bool
  relInsideRepo : Bool
  statusOut : String
  allStatusCode : Nat
  diffOf : String → String
  commitCode : Nat
  pushCode : Nat
  pyprojectExists : Bool
  bumpResult : Nat
  razorcoreSaveResult : Nat

/-- Git effect invoked for the target project. -/
inductive SaveEvent where
  | commit (msg : String)
  | push
deriving DecidableEq

/-- Embedding of save_project (lines 1069 to 1368): guard clauses for a
missing project, a failed rev-parse and a project outside the repository;
the no-changes path, which may return 1 when the cascaded toolkit
auto-save runs and fails (lines 1127 to 1134); the all-status guard for
nested projects (lines 1136 to 1147); then commit, push, and the two
warn-only steps, version bump and cascaded auto-save, whose results do
not affect the return code (lines 1328 to 1368). -/
def saveProject (env : SaveEnv)
    (projectIsRazorcore autoBump autoSaveRazorcore : Bool) : Nat × List SaveEvent :=
  if env.projectExists = false then (1, [])
  else if env.gitRootCode ≠ 0 ∨ pyStrip env.gitRootOut = "" then (1, [])
  else if env.isNested ∧ env.relInsideRepo = false then (1, [])
  else if pyStrip env.statusOut = "" then
    if autoSaveRazorcore ∧ projectIsRazorcore = false ∧ env.razorcoreSaveResult ≠ 0
    then (1, [])
    else (0, [])
  else if env.isNested ∧ env.allStatusCode ≠ 0 then (1, [])
  else
    let msg := commitMessage env.diffOf (pySplit '\n' (pyStrip env.statusOut))
    if env.commitCode ≠ 0 then (1, [SaveEvent.commit msg])
    else if env.pushCode ≠ 0 then (1, [SaveEvent.commit msg, SaveEvent.push])
    else (0, [SaveEvent.commit msg, SaveEvent.push])

/-- C6 (amended): when the project has no uncommitted changes, the save
invokes no commit and no push for that project; its return code is 0
except that, when the cascaded auto-save of the toolkit repository runs
(auto-save enabled and the project is not the toolkit itself) and that
cascade fails, the save returns 1. -/
theorem no_changes_no_commit (env : SaveEnv)
    (projectIsRazorcore autoBump autoSaveRazorcore : Bool)
    (hexists : env.projectExists = true)
    (hroot : env.gitRootCode = 0)
    (hrootOut : pyStrip env.gitRootOut ≠ "")
    (hrel : env.isNested = true → env.relInsideRepo = true)
    (hstatus : pyStrip env.statusOut = "") :
    (saveProject env projectIsRazorcore autoBump autoSaveRazorcore).2 = [] ∧
    (saveProject env projectIsRazorcore autoBump autoSaveRazorcore).1 =
      (if autoSaveRazorcore ∧ projectIsRazorcore = false ∧ env.razorcoreSaveResult ≠ 0
       then 1 else 0) := by
  have h1 : ¬ env.projectExists = false := by simp [hexists]
  have h2 : ¬ (env.gitRootCode ≠ 0 ∨ pyStrip env.gitRootOut = "") := by
    simp [hroot, hrootOut]
  have h3 : ¬ (env.isNested ∧ env.relInsideRepo = false) := by
    rintro ⟨hn, hr⟩
    rw [hrel hn] at hr
    cases hr
  rw [saveProject, if_neg h1, if_neg h2, if_neg h3, if_pos hstatus]
  by_cases hc :
    autoSaveRazorcore ∧ projectIsRazorcore = false ∧ env.razorcoreSaveResult ≠ 0
  · rw [if_pos hc, if_pos hc]
    exact ⟨rfl, rfl⟩
  · rw [if_neg hc, if_neg hc]
    exact ⟨rfl, rfl⟩

/-- Environment of a clean project whose cascaded toolkit auto-save
fails. -/
def noChangesEnv : SaveEnv :=
  ⟨true, 0, "/repo", false, true, "", 0, fun _ => "", 0, 0, true, 0, 1⟩

/-- C6 witness: the amended property evaluated on a clean non-toolkit
project with auto-save enabled and a failing cascade. -/
theorem no_changes_no_commit_witness :
    (saveProject noChangesEnv false true true).2 = [] ∧
    (saveProject noChangesEnv false true true).1 =
      (if (true : Bool) ∧ (false : Bool) = false ∧ noChangesEnv.razorcoreSaveResult ≠ 0
       then 1 else 0) :=
  no_changes_no_commit noChangesEnv false true true rfl rfl (by decide)
    (fun _ => rfl) rfl

/-- C6 counterexample: a project with no uncommitted changes for which
save_project returns 1, not the claimed success 0: the cascaded auto-save
of the toolkit repository runs and fails, and the no-changes path then
returns 1 (line 1133). -/
theorem no_changes_counterexample :
    pyStrip noChangesEnv.statusOut = "" ∧
    (saveProject noChangesEnv false true true).1 = 1 :=
  ⟨rfl, rfl⟩

/-- C10: when the project exists, the repository root is found, the status
shows changes, and the commit and the push both succeed, save_project
returns 0 whatever the automatic version-bump result and the cascaded
toolkit auto-save result are: both are reported as warnings only. -/
theorem save_success_ignores_bump_and_cascade (env : SaveEnv)
    (projectIsRazorcore autoBump autoSaveRazorcore : Bool)
    (hexists : env.projectExists = true)
    (hroot : env.gitRootCode = 0)
    (hrootOut : pyStrip env.gitRootOut ≠ "")
    (hrel : env.isNested = true → env.relInsideRepo = true)
    (hstatus : pyStrip env.statusOut ≠ "")
    (hall : env.isNested = true → env.allStatusCode = 0)
    (hcommit : env.commitCode = 0)
    (hpush : env.pushCode = 0) :
    (saveProject env projectIsRazorcore autoBump autoSaveRazorcore).1 = 0 := by
  have h1 : ¬ env.projectExists = false := by simp [hexists]
  have h2 : ¬ (env.gitRootCode ≠ 0 ∨ pyStrip env.gitRootOut = "") := by
    simp [hroot, hrootOut]
  have h3 : ¬ (env.isNested ∧ env.relInsideRepo = false) := by
    rintro ⟨hn, hr⟩
    rw [hrel hn] at hr
    cases hr
  have h4 : ¬ (env.isNested ∧ env.allStatusCode ≠ 0) := by
    rintro ⟨hn, hc⟩
    exact hc (hall hn)
  rw [saveProject, if_neg h1, if_neg h2, if_neg h3, if_neg hstatus, if_neg h4]
  simp [hcommit, hpush]

/-- Environment of a dirty project whose commit and push succeed while
both the version bump and the cascaded toolkit auto-save fail. -/
def successEnv : SaveEnv :=
  ⟨true, 0, "/repo", false, true, "M  src/app.py", 0, fun _ => "", 0, 0, true, 1, 1⟩

/-- C10 witness: commit and push succeed, the version bump and the
cascade both fail, and the save still returns 0. -/
theorem save_success_witness :
    (saveProject successEnv false true true).1 = 0 :=
  save_success_ignores_bump_and_cascade successEnv false true true rfl rfl
    (by decide) (fun _ => rfl) (by decide) (fun _ => rfl) rfl rfl

end Razorcore
